import Mathlib

/-
Verification of the supervision/orchestration core of the `potato` mining-node
repository. Each Rust function relevant to the verified claims is shallowly
embedded as an executable Lean definition, translated directly from the source
files (`src/main.rs`, `src/bitcoin_node/mod.rs`, `src/configuration/mod.rs`,
`src/error.rs`). Effectful inputs (configuration-file loading, RPC responses,
console input, the engine/interrupt race) are modelled as explicit parameters;
time is modelled virtually, in seconds, with RPC calls taking zero time.
-/

namespace Potato

/-! ## Configuration data model

Transcribed from `src/configuration/mod.rs`. `Secp256k1PublicKey` is an opaque
validated key wrapper from the `key_utils` crate; it is modelled as a wrapper
around its textual form, and `from_str` as the total constructor (the default
configurations only ever apply it to fixed literals the code unwraps). -/

structure Secp256k1PublicKey where
  key : String
deriving DecidableEq

def Secp256k1PublicKey.from_str (s : String) : Secp256k1PublicKey := ⟨s⟩

/-- CoinbaseOutput as constructed by `CoinbaseOutput::new(script_type, value)`:
an output-script type tag plus the serialized key text. -/
structure CoinbaseOutput where
  output_script_type : String
  output_script_value : String
deriving DecidableEq

def CoinbaseOutput.new (t v : String) : CoinbaseOutput := ⟨t, v⟩

/-- PoolConfiguration fields, as populated by `create_default_pool_config`.
The `test_only_listen_address_plain` field is behind a disabled cargo feature
and is omitted. -/
structure PoolConfiguration where
  listen_address : String
  tp_address : String
  tp_authority_public_key : Option Secp256k1PublicKey
  authority_public_key : Secp256k1PublicKey
  authority_secret_key : String
  cert_validity_sec : Nat
  coinbase_outputs : List CoinbaseOutput
  pool_signature : String
deriving DecidableEq

/-- DownstreamDifficultyConfig; the two f64 fields are modelled as rationals
(their values are only ever the literals below at this layer). -/
structure DownstreamDifficultyConfig where
  min_individual_miner_hashrate : Rat
  shares_per_minute : Rat
  submits_since_last_update : Nat
  timestamp_of_last_update : Nat
deriving DecidableEq

structure UpstreamDifficultyConfig where
  channel_diff_update_interval : Nat
  channel_nominal_hashrate : Rat
  timestamp_of_last_update : Nat
  should_aggregate : Bool
deriving DecidableEq

structure ProxyConfig where
  upstream_address : String
  upstream_port : Nat
  upstream_authority_pubkey : Secp256k1PublicKey
  downstream_address : String
  downstream_port : Nat
  max_supported_version : Nat
  min_supported_version : Nat
  min_extranonce2_size : Nat
  downstream_difficulty_config : DownstreamDifficultyConfig
  upstream_difficulty_config : UpstreamDifficultyConfig
deriving DecidableEq

/-- Default pool configuration, transcribed from `create_default_pool_config`
in `src/configuration/mod.rs`. -/
def create_default_pool_config : PoolConfiguration where
  listen_address := "0.0.0.0:34254"
  tp_address := "127.0.0.1:8442"
  tp_authority_public_key :=
    some (Secp256k1PublicKey.from_str ("9auqWEzQDVyd2oe1JVGFLMLHZtCo2FFqZwtKA5gd9xbuEu7PH72"))
  authority_public_key :=
    Secp256k1PublicKey.from_str ("9auqWEzQDVyd2oe1JVGFLMLHZtCo2FFqZwtKA5gd9xbuEu7PH72")
  authority_secret_key := "mkDLTBBRxdBv998612qipDYoTK3YUrqLe8uWw7gu3iXbSrn2n"
  cert_validity_sec := 3600
  coinbase_outputs :=
    [CoinbaseOutput.new ("P2WPKH")
      ("032a384861cb109a7b69b550601e4935ee30903be6b281f058a3c65c657938f8f8")]
  pool_signature := "potato"

/-- Default proxy configuration, transcribed from `create_default_proxy_config`
in `src/configuration/mod.rs`: the upstream authority pubkey is taken from the
pool configuration passed in. -/
def create_default_proxy_config (pool_config : PoolConfiguration) : ProxyConfig where
  upstream_address := "127.0.0.1"
  upstream_port := 34254
  upstream_authority_pubkey := pool_config.authority_public_key
  downstream_address := "0.0.0.0"
  downstream_port := 34255
  max_supported_version := 2
  min_supported_version := 2
  min_extranonce2_size := 8
  downstream_difficulty_config :=
    { min_individual_miner_hashrate := 10000000000000
      shares_per_minute := 6
      submits_since_last_update := 0
      timestamp_of_last_update := 0 }
  upstream_difficulty_config :=
    { channel_diff_update_interval := 60
      channel_nominal_hashrate := 10000000000000
      timestamp_of_last_update := 0
      should_aggregate := false }

/-- Outcome of reading a configuration file at a given path, the effectful
input of the two loaders. `buildErr` is a failure of
`Config::builder().add_source(File::new(path, Toml)).build()` (missing file,
I/O failure, or TOML parse failure); `deserializeErr` is a failure of
`config.try_deserialize()` after a successful build; `loaded` is a fully
deserialized value. -/
inductive ConfigFileLoad (α : Type) where
  | buildErr (e : String)
  | deserializeErr (e : String)
  | loaded (c : α)
deriving DecidableEq

/-- Model of `load_or_create_proxy_config` (`src/configuration/mod.rs`, lines
173-194): on a successful build the deserialized config has its
`upstream_authority_pubkey` overwritten with the pool's authority key, but a
deserialization failure is propagated by the `?` operator; on a build failure
the default proxy config is returned. -/
def load_or_create_proxy_config (file : ConfigFileLoad ProxyConfig)
    (pool_config : PoolConfiguration) : Except String ProxyConfig :=
  match file with
  | .loaded c =>
      .ok { c with upstream_authority_pubkey := pool_config.authority_public_key }
  | .deserializeErr e => .error e
  | .buildErr _ => .ok (create_default_proxy_config pool_config)

/-- Model of `load_or_create_pool_config` (`src/configuration/mod.rs`, lines
196-209): a build failure yields the default pool config, while a
deserialization failure is propagated by the `?` operator. -/
def load_or_create_pool_config (file : ConfigFileLoad PoolConfiguration) :
    Except String PoolConfiguration :=
  match file with
  | .loaded c => .ok c
  | .deserializeErr e => .error e
  | .buildErr _ => .ok create_default_pool_config

/-- C1: for every proxy configuration file outcome and every pool
configuration, whenever proxy-config resolution returns a ProxyConfig, its
`upstream_authority_pubkey` equals the pool configuration's
`authority_public_key`. -/
theorem c1_resolved_proxy_upstream_key_equals_pool_authority_key
    (file : ConfigFileLoad ProxyConfig) (pool : PoolConfiguration) (c : ProxyConfig)
    (h : load_or_create_proxy_config file pool = .ok c) :
    c.upstream_authority_pubkey = pool.authority_public_key := by
  cases file with
  | loaded c0 =>
      simp only [load_or_create_proxy_config, Except.ok.injEq] at h
      subst h
      rfl
  | deserializeErr e =>
      simp [load_or_create_proxy_config] at h
  | buildErr e =>
      simp only [load_or_create_proxy_config, Except.ok.injEq] at h
      subst h
      rfl

/-- Witness for C1: the default-substitution path at a concrete input. -/
theorem c1_witness :
    (create_default_proxy_config create_default_pool_config).upstream_authority_pubkey =
      create_default_pool_config.authority_public_key :=
  c1_resolved_proxy_upstream_key_equals_pool_authority_key
    (.buildErr ("No such file or directory")) create_default_pool_config
    (create_default_proxy_config create_default_pool_config) rfl

/-- C2 counterexample: a configuration file that parses as TOML but fails
typed deserialization makes both loaders return an error instead of the
built-in default, refuting the claim that resolution never returns an error. -/
theorem c2_counterexample :
    load_or_create_pool_config (.deserializeErr ("missing field listen_address")) =
      .error ("missing field listen_address") ∧
    load_or_create_proxy_config (.deserializeErr ("missing field upstream_address"))
        create_default_pool_config =
      .error ("missing field upstream_address") :=
  ⟨rfl, rfl⟩

/-- C2 amended: a build failure of the configuration file (missing file, I/O
failure, TOML parse failure) makes both loaders log a warning and return the
built-in default, but a deserialization failure after a successful parse is
propagated as an error rather than replaced by the default. -/
theorem c2_amended_build_failure_falls_back_deserialize_failure_propagates
    (e : String) (pool : PoolConfiguration) :
    load_or_create_pool_config (.buildErr e) = .ok create_default_pool_config ∧
    load_or_create_proxy_config (.buildErr e) pool =
      .ok (create_default_proxy_config pool) ∧
    load_or_create_pool_config (.deserializeErr e) = .error e ∧
    load_or_create_proxy_config (.deserializeErr e) pool = .error e :=
  ⟨rfl, rfl, rfl, rfl⟩

/-- Witness for the amended C2: concrete build-failure and
deserialization-failure inputs. -/
theorem c2_amended_witness :
    load_or_create_pool_config (.buildErr ("No such file or directory")) =
      .ok create_default_pool_config ∧
    load_or_create_proxy_config (.buildErr ("No such file or directory"))
        create_default_pool_config =
      .ok (create_default_proxy_config create_default_pool_config) ∧
    load_or_create_pool_config (.deserializeErr ("No such file or directory")) =
      .error ("No such file or directory") ∧
    load_or_create_proxy_config (.deserializeErr ("No such file or directory"))
        create_default_pool_config =
      .error ("No such file or directory") :=
  c2_amended_build_failure_falls_back_deserialize_failure_propagates
    ("No such file or directory") create_default_pool_config

/-! ## Node supervisor: network, ports and configuration document

Transcribed from `BitcoinNode::new` and `BITCOIN_CONF_TEMPLATE`
(`src/bitcoin_node/mod.rs` lines 9-48 and `src/main.rs` lines 22-71; the two
copies are identical). -/

/-- Network selector of the `bitcoin` crate (`stratum_common::bitcoin::Network`
has exactly these four variants). -/
inductive Network where
  | bitcoin
  | testnet
  | signet
  | regtest
deriving DecidableEq

/-- Base RPC port selection from `BitcoinNode::new`: fixed port per supported
network; the wildcard arm (the production network) fails with the
unsupported-network error. -/
def base_rpc_port (network : Network) : Except String Nat :=
  match network with
  | .regtest => .ok 18443
  | .testnet => .ok 18332
  | .signet => .ok 38332
  | _ => .error ("Unsupported network")

structure NodePorts where
  rpc_port : Nat
  p2p_port : Nat
  zmq_block_port : Nat
  zmq_tx_port : Nat
deriving DecidableEq

/-- Port derivation of `BitcoinNode::new`: `p2p_port = rpc_port + 1`,
`zmq_block_port = rpc_port + 2`, `zmq_tx_port = rpc_port + 3`. -/
def node_ports (network : Network) : Except String NodePorts := do
  let rpc ← base_rpc_port network
  return ⟨rpc, rpc + 1, rpc + 2, rpc + 3⟩

/-- Lines of `BITCOIN_CONF_TEMPLATE` after the four port substitutions, in
file order (the raw template starts and ends with a newline, hence the empty
first and the blank separator lines). -/
def bitcoin_conf_lines (rpc_port p2p_port zmq_block_port zmq_tx_port : Nat) :
    List String :=
  [ ""
  , "regtest=1"
  , "fallbackfee=0.0004"
  , "txindex=1"
  , "server=1"
  , "rpcuser=bitcoin"
  , "rpcpassword=bitcoin"
  , "zmqpubrawblock=tcp://127.0.0.1:" ++ toString zmq_block_port
  , "zmqpubrawtx=tcp://127.0.0.1:" ++ toString zmq_tx_port
  , "rpcworkqueue=1024"
  , "rpcthreads=64"
  , "deprecatedrpc=warnings"
  , ""
  , "[regtest]"
  , "port=" ++ toString p2p_port
  , "bind=127.0.0.1:" ++ toString p2p_port
  , "rpcport=" ++ toString rpc_port
  , "rpcbind=127.0.0.1:" ++ toString rpc_port ]

/-- Configuration document written by `BitcoinNode::new` for a given network:
the template rendered with the network's four derived ports. -/
def bitcoin_conf (network : Network) : Except String (List String) := do
  let p ← node_ports network
  return bitcoin_conf_lines p.rpc_port p.p2p_port p.zmq_block_port p.zmq_tx_port

/-- C7: each of the three supported networks gets its fixed base RPC port with
the three derived ports at offsets +1, +2, +3, and the only other network
value (the production network) fails with the unsupported-network error. -/
theorem c7_port_derivation_and_unsupported_network :
    node_ports .regtest = .ok ⟨18443, 18444, 18445, 18446⟩ ∧
    node_ports .testnet = .ok ⟨18332, 18333, 18334, 18335⟩ ∧
    node_ports .signet = .ok ⟨38332, 38333, 38334, 38335⟩ ∧
    node_ports .bitcoin = .error ("Unsupported network") ∧
    ∀ n, n ≠ Network.bitcoin →
      ∃ rpc, base_rpc_port n = .ok rpc ∧
        node_ports n = .ok ⟨rpc, rpc + 1, rpc + 2, rpc + 3⟩ := by
  refine ⟨rfl, rfl, rfl, rfl, ?_⟩
  intro n h
  cases n with
  | bitcoin => exact absurd rfl h
  | testnet => exact ⟨18332, rfl, rfl⟩
  | signet => exact ⟨38332, rfl, rfl⟩
  | regtest => exact ⟨18443, rfl, rfl⟩

/-- Witness for C7: the universally quantified conjunct applied at the signet
network. -/
theorem c7_witness :
    ∃ rpc, base_rpc_port Network.signet = .ok rpc ∧
      node_ports Network.signet = .ok ⟨rpc, rpc + 1, rpc + 2, rpc + 3⟩ :=
  c7_port_derivation_and_unsupported_network.2.2.2.2 Network.signet (by decide)

/-! ## Node supervisor: two-mode readiness gate

Transcribed from `BitcoinNode::wait_for_ready` (`src/bitcoin_node/mod.rs`
lines 74-116; `src/main.rs` lines 92-137 is identical). The RPC transport is
modelled as `responses : Nat -> Option GetBlockchainInfoResult`, giving for
each successive poll either a successful status (`some info`) or a transport
failure (`none`, whose error payload the code only logs). Time is virtual, in
seconds: each RPC call is instantaneous and `elapsed` is the sum of the sleeps
performed so far, which matches `start.elapsed()` under that clock. The loop
is given explicit fuel (a bound on the number of poll iterations); `none`
means the loop did not terminate within the fuel. The outcome also records
the elapsed time at return and the list of sleep intervals performed, which
the code observes through its log lines and its sleep calls. -/

def MAX_WAIT : Nat := 8 * 60

def INITIAL_WAIT : Nat := 1

def MAX_RETRY_INTERVAL : Nat := 30

def SYNC_CHECK_INTERVAL : Nat := 3600

structure GetBlockchainInfoResult where
  initial_block_download : Bool
deriving DecidableEq

inductive WaitOutcome where
  | ready (elapsed : Nat) (sleeps : List Nat)
  | timeout (elapsed : Nat) (sleeps : List Nat)
deriving DecidableEq

/-- Body of the polling loop of `wait_for_ready`. Arguments after `responses`:
fuel, poll index, elapsed seconds, current backoff `wait_time`, and the sleeps
performed so far. -/
def wait_for_ready_loop (initial_sync : Bool)
    (responses : Nat → Option GetBlockchainInfoResult) :
    Nat → Nat → Nat → Nat → List Nat → Option WaitOutcome
  | 0, _, _, _, _ => none
  | fuel + 1, attempt, elapsed, wait_time, sleeps =>
    match responses attempt with
    | some info =>
        if initial_sync = true ∧ info.initial_block_download = true then
          wait_for_ready_loop initial_sync responses fuel (attempt + 1)
            (elapsed + SYNC_CHECK_INTERVAL) wait_time (sleeps ++ [SYNC_CHECK_INTERVAL])
        else
          some (.ready elapsed sleeps)
    | none =>
        if initial_sync = false ∧ MAX_WAIT ≤ elapsed then
          some (.timeout elapsed sleeps)
        else
          wait_for_ready_loop initial_sync responses fuel (attempt + 1)
            (elapsed + (if initial_sync = true then SYNC_CHECK_INTERVAL else wait_time))
            (if initial_sync = true then wait_time
              else min (wait_time * 2) MAX_RETRY_INTERVAL)
            (sleeps ++ [if initial_sync = true then SYNC_CHECK_INTERVAL else wait_time])

/-- Entry point of `wait_for_ready`: poll index 0, zero elapsed time, backoff
seeded with `INITIAL_WAIT`, no sleeps performed yet. -/
def wait_for_ready (initial_sync : Bool)
    (responses : Nat → Option GetBlockchainInfoResult) (fuel : Nat) :
    Option WaitOutcome :=
  wait_for_ready_loop initial_sync responses fuel 0 0 INITIAL_WAIT []

/-- The loop only looks at the responses it actually polls, so pointwise equal
response streams give equal runs. -/
theorem wait_for_ready_loop_congr (initial_sync : Bool)
    (r1 r2 : Nat → Option GetBlockchainInfoResult) (h : ∀ n, r1 n = r2 n) :
    ∀ fuel attempt elapsed wait_time sleeps,
      wait_for_ready_loop initial_sync r1 fuel attempt elapsed wait_time sleeps =
      wait_for_ready_loop initial_sync r2 fuel attempt elapsed wait_time sleeps := by
  intro fuel
  induction fuel with
  | zero => intro a e w s; rfl
  | succ f ih =>
      intro a e w s
      rcases hr : r2 a with _ | info
      · simp only [wait_for_ready_loop, h a, hr]
        by_cases hc : initial_sync = false ∧ MAX_WAIT ≤ e
        · simp only [if_pos hc]
        · simp only [if_neg hc]
          exact ih (a + 1) _ _ _
      · simp only [wait_for_ready_loop, h a, hr]
        by_cases hc : initial_sync = true ∧ info.initial_block_download = true
        · simp only [if_pos hc]
          exact ih (a + 1) _ _ _
        · simp only [if_neg hc]

/-- Fuel monotonicity: once the loop returns an outcome with some fuel, any
larger fuel returns the same outcome. -/
theorem wait_for_ready_loop_fuel_mono (initial_sync : Bool)
    (responses : Nat → Option GetBlockchainInfoResult) :
    ∀ g f attempt elapsed wait_time sleeps o, f ≤ g →
      wait_for_ready_loop initial_sync responses f attempt elapsed wait_time sleeps =
        some o →
      wait_for_ready_loop initial_sync responses g attempt elapsed wait_time sleeps =
        some o := by
  intro g
  induction g with
  | zero =>
      intro f a e w s o hf h
      have hf0 : f = 0 := Nat.le_zero.mp hf
      subst hf0
      exact absurd h (by simp [wait_for_ready_loop])
  | succ g ih =>
      intro f a e w s o hf h
      cases f with
      | zero => exact absurd h (by simp [wait_for_ready_loop])
      | succ f0 =>
          have hf0 : f0 ≤ g := Nat.le_of_succ_le_succ hf
          rcases hr : responses a with _ | info
          · simp only [wait_for_ready_loop, hr] at h ⊢
            by_cases hc : initial_sync = false ∧ MAX_WAIT ≤ e
            · rw [if_pos hc] at h ⊢
              exact h
            · rw [if_neg hc] at h ⊢
              exact ih f0 _ _ _ _ o hf0 h
          · simp only [wait_for_ready_loop, hr] at h ⊢
            by_cases hc : initial_sync = true ∧ info.initial_block_download = true
            · rw [if_pos hc] at h ⊢
              exact ih f0 _ _ _ _ o hf0 h
            · rw [if_neg hc] at h ⊢
              exact h

/-- Backoff interval before the (n+1)-th failed-poll sleep in normal-start
mode: starts at `INITIAL_WAIT`, doubles each step, capped at
`MAX_RETRY_INTERVAL`. -/
def backoff_interval : Nat → Nat
  | 0 => INITIAL_WAIT
  | n + 1 => min (backoff_interval n * 2) MAX_RETRY_INTERVAL

/-- Response stream on which every blockchain-status call fails. -/
def all_failing_responses (_n : Nat) : Option GetBlockchainInfoResult := none

/-- C4: in normal-start mode against a permanently failing transport, the
readiness wait returns Timeout at elapsed time 481 s — at least 8 minutes and
strictly less than 8 minutes plus one (capped) backoff interval — after sleep
intervals 1, 2, 4, 8, 16, then 30 repeatedly, i.e. the doubling-capped
backoff sequence; the outcome is stable under any extra fuel. -/
theorem c4_normal_mode_timeout_after_eight_minutes
    (responses : Nat → Option GetBlockchainInfoResult)
    (h : ∀ n, responses n = none) :
    wait_for_ready false responses 21 =
      some (.timeout 481 ((List.range 20).map backoff_interval)) ∧
    MAX_WAIT ≤ 481 ∧ 481 < MAX_WAIT + MAX_RETRY_INTERVAL ∧
    (List.range 20).map backoff_interval = [1, 2, 4, 8, 16] ++ List.replicate 15 30 ∧
    ∀ k, wait_for_ready false responses (21 + k) =
      some (.timeout 481 ((List.range 20).map backoff_interval)) := by
  have hcongr : ∀ fuel, wait_for_ready false responses fuel =
      wait_for_ready false all_failing_responses fuel := by
    intro fuel
    exact wait_for_ready_loop_congr false responses all_failing_responses
      (fun n => h n) fuel 0 0 INITIAL_WAIT []
  have hbase : wait_for_ready false all_failing_responses 21 =
      some (.timeout 481 ((List.range 20).map backoff_interval)) := by decide
  have h21 : wait_for_ready false responses 21 =
      some (.timeout 481 ((List.range 20).map backoff_interval)) := by
    rw [hcongr 21]; exact hbase
  refine ⟨h21, by decide, by decide, by decide, ?_⟩
  intro k
  exact wait_for_ready_loop_fuel_mono false responses (21 + k) 21 0 0 INITIAL_WAIT []
    _ (Nat.le_add_right 21 k) h21

/-- Witness for C4: the permanently failing stream itself. -/
theorem c4_witness :
    wait_for_ready false all_failing_responses 21 =
      some (.timeout 481 ((List.range 20).map backoff_interval)) :=
  (c4_normal_mode_timeout_after_eight_minutes all_failing_responses
    (fun _ => rfl)).1

/-- Helper for C5: in initial-sync mode, while every polled response is either
a transport failure or a still-syncing report, the loop never returns, for any
fuel and from any loop state. -/
theorem sync_loop_never_returns (responses : Nat → Option GetBlockchainInfoResult)
    (h : ∀ n, responses n = none ∨ responses n = some ⟨true⟩) :
    ∀ fuel attempt elapsed wait_time sleeps,
      wait_for_ready_loop true responses fuel attempt elapsed wait_time sleeps =
        none := by
  intro fuel
  induction fuel with
  | zero => intro a e w s; rfl
  | succ f ih =>
      intro a e w s
      rcases h a with hr | hr
      · simp [wait_for_ready_loop, hr]
        exact ih (a + 1) _ _ _
      · simp [wait_for_ready_loop, hr]
        exact ih (a + 1) _ _ _

/-- Helper for C5: in initial-sync mode, if the polls starting at `attempt`
are failures or still-syncing reports for `k` steps and the poll at
`attempt + k` succeeds reporting sync finished, the loop returns Ready at that
poll, having slept one hour between each pair of attempts, for any fuel larger
than `k`. -/
theorem sync_loop_ready_at_first_synced
    (responses : Nat → Option GetBlockchainInfoResult) :
    ∀ k attempt elapsed wait_time sleeps,
      (∀ m, m < k → responses (attempt + m) = none ∨
        responses (attempt + m) = some ⟨true⟩) →
      responses (attempt + k) = some ⟨false⟩ →
      ∀ g, k < g →
        wait_for_ready_loop true responses g attempt elapsed wait_time sleeps =
          some (.ready (elapsed + SYNC_CHECK_INTERVAL * k)
            (sleeps ++ List.replicate k SYNC_CHECK_INTERVAL)) := by
  intro k
  induction k with
  | zero =>
      intro a e w s _ hgood g hg
      obtain ⟨g0, rfl⟩ : ∃ g0, g = g0 + 1 :=
        ⟨g - 1, by omega⟩
      have ha : responses a = some ⟨false⟩ := by
        rwa [Nat.add_zero] at hgood
      simp [wait_for_ready_loop, ha]
  | succ k0 ih =>
      intro a e w s hbad hgood g hg
      obtain ⟨g0, rfl⟩ : ∃ g0, g = g0 + 1 :=
        ⟨g - 1, by omega⟩
      have hg0 : k0 < g0 := by omega
      have hbad0 : responses a = none ∨ responses a = some ⟨true⟩ := by
        have := hbad 0 (Nat.succ_pos k0)
        rwa [Nat.add_zero] at this
      have hbadShift : ∀ m, m < k0 → responses ((a + 1) + m) = none ∨
          responses ((a + 1) + m) = some ⟨true⟩ := by
        intro m hm
        have := hbad (m + 1) (by omega)
        have harith : a + (m + 1) = (a + 1) + m := by omega
        rwa [harith] at this
      have hgoodShift : responses ((a + 1) + k0) = some ⟨false⟩ := by
        have harith : a + (k0 + 1) = (a + 1) + k0 := by omega
        rwa [harith] at hgood
      have hrec := ih (a + 1) (e + SYNC_CHECK_INTERVAL) w (s ++ [SYNC_CHECK_INTERVAL])
        hbadShift hgoodShift g0 hg0
      have houtcome : WaitOutcome.ready ((e + SYNC_CHECK_INTERVAL) + SYNC_CHECK_INTERVAL * k0)
            ((s ++ [SYNC_CHECK_INTERVAL]) ++ List.replicate k0 SYNC_CHECK_INTERVAL) =
          WaitOutcome.ready (e + SYNC_CHECK_INTERVAL * (k0 + 1))
            (s ++ List.replicate (k0 + 1) SYNC_CHECK_INTERVAL) := by
        congr 1
        · ring
        · simp [List.replicate_succ]
      rcases hbad0 with hr | hr
      · simp [wait_for_ready_loop, hr]
        rw [hrec, houtcome]
      · simp [wait_for_ready_loop, hr]
        rw [hrec, houtcome]

/-- C5: in initial-sync mode the readiness wait has no deadline — against any
stream of responses that are all transport failures or still-syncing reports
it never returns, whatever the fuel; and it returns Ready exactly at the first
poll whose status call succeeds reporting sync finished, having slept one full
hour (never the fast backoff) between every pair of attempts, whether the
earlier attempt failed or reported still-syncing. -/
theorem c5_initial_sync_mode_no_deadline_hourly_cadence
    (responses : Nat → Option GetBlockchainInfoResult) :
    ((∀ n, responses n = none ∨ responses n = some ⟨true⟩) →
      ∀ fuel, wait_for_ready true responses fuel = none) ∧
    (∀ k, (∀ m, m < k → responses m = none ∨ responses m = some ⟨true⟩) →
      responses k = some ⟨false⟩ →
      ∀ g, k < g →
        wait_for_ready true responses g =
          some (.ready (SYNC_CHECK_INTERVAL * k)
            (List.replicate k SYNC_CHECK_INTERVAL))) := by
  constructor
  · intro h fuel
    exact sync_loop_never_returns responses h fuel 0 0 INITIAL_WAIT []
  · intro k hbad hgood g hg
    have hbad0 : ∀ m, m < k → responses (0 + m) = none ∨
        responses (0 + m) = some ⟨true⟩ := by
      intro m hm
      simpa using hbad m hm
    have hgood0 : responses (0 + k) = some ⟨false⟩ := by simpa using hgood
    have := sync_loop_ready_at_first_synced responses k 0 0 INITIAL_WAIT []
      hbad0 hgood0 g hg
    simpa [wait_for_ready] using this

/-- Response stream for the C5 witness: still syncing on the first two polls,
sync finished from the third. -/
def sample_sync_responses (n : Nat) : Option GetBlockchainInfoResult :=
  if n < 2 then some ⟨true⟩ else some ⟨false⟩

/-- Witness for C5: with two still-syncing reports followed by a synced
report, the wait returns Ready on the third poll after two one-hour sleeps. -/
theorem c5_witness :
    wait_for_ready true sample_sync_responses 3 =
      some (.ready (SYNC_CHECK_INTERVAL * 2)
        (List.replicate 2 SYNC_CHECK_INTERVAL)) :=
  (c5_initial_sync_mode_no_deadline_hourly_cadence sample_sync_responses).2 2
    (by
      intro m hm
      right
      simp [sample_sync_responses, hm])
    (by simp [sample_sync_responses]) 3 (by omega)

/-! ## Unified error taxonomy

Transcribed from `src/error.rs`. Each variant's payload is the Debug
rendering (`{:?}`) of the wrapped external cause, modelled as a `String`
(external error types are opaque to this layer; only their rendered text
flows into the display output). The `Error::PoisonLock` variant carries no
payload, exactly as in the source. The `From` impls are modelled as one
function per impl, taking the would-be payload text of the converted cause.
The Display impls are transcribed format string by format string, including
the source's missing closing backticks on some arms; `{:?}` applied to a
`String` payload (the `General`, `PoisonLock`, `ComponentShutdown`, `Custom`
arms) adds quotation marks, modelled by `debug_quoted`. -/

def debug_quoted (s : String) : String := "\"" ++ s ++ "\""

/-- ChannelSendError from `src/error.rs` lines 15-34. -/
inductive ChannelSendError where
  | submitSharesExtended (e : String)
  | setNewPrevHash (e : String)
  | newExtendedMiningJob (e : String)
  | notify (e : String)
  | v1Message (e : String)
  | general (s : String)
  | extranonce (e : String)
  | setCustomMiningJob (e : String)
  | newTemplate (e : String)
deriving DecidableEq

/-- Debug rendering of ChannelSendError (Rust `derive(Debug)`). -/
def ChannelSendError.debugText : ChannelSendError → String
  | .submitSharesExtended e => "SubmitSharesExtended(" ++ e ++ ")"
  | .setNewPrevHash e => "SetNewPrevHash(" ++ e ++ ")"
  | .newExtendedMiningJob e => "NewExtendedMiningJob(" ++ e ++ ")"
  | .notify e => "Notify(" ++ e ++ ")"
  | .v1Message e => "V1Message(" ++ e ++ ")"
  | .general s => "General(" ++ debug_quoted s ++ ")"
  | .extranonce e => "Extranonce(" ++ e ++ ")"
  | .setCustomMiningJob e => "SetCustomMiningJob(" ++ e ++ ")"
  | .newTemplate e => "NewTemplate(" ++ e ++ ")"

/-- PoolError from `src/error.rs` lines 321-335 (the pool-internal taxonomy).
The `Io` variant is named `ioErr` here. -/
inductive PoolError where
  | ioErr (e : String)
  | channelSend (e : String)
  | channelRecv (e : String)
  | binarySv2 (e : String)
  | codec (e : String)
  | noise (e : String)
  | rolesLogic (e : String)
  | framing (e : String)
  | poisonLock (s : String)
  | componentShutdown (s : String)
  | custom (s : String)
  | sv2ProtocolError (e : String)
deriving DecidableEq

/-- Debug rendering of PoolError (Rust `derive(Debug)`). -/
def PoolError.debugText : PoolError → String
  | .ioErr e => "Io(" ++ e ++ ")"
  | .channelSend e => "ChannelSend(" ++ e ++ ")"
  | .channelRecv e => "ChannelRecv(" ++ e ++ ")"
  | .binarySv2 e => "BinarySv2(" ++ e ++ ")"
  | .codec e => "Codec(" ++ e ++ ")"
  | .noise e => "Noise(" ++ e ++ ")"
  | .rolesLogic e => "RolesLogic(" ++ e ++ ")"
  | .framing e => "Framing(" ++ e ++ ")"
  | .poisonLock s => "PoisonLock(" ++ debug_quoted s ++ ")"
  | .componentShutdown s => "ComponentShutdown(" ++ debug_quoted s ++ ")"
  | .custom s => "Custom(" ++ debug_quoted s ++ ")"
  | .sv2ProtocolError e => "Sv2ProtocolError(" ++ e ++ ")"

/-- Display impl of PoolError (`src/error.rs` lines 343-363), transcribed
format string by format string; the `Io`, `Codec` and `Noise` arms lack the
closing backtick in the source. -/
def PoolError.display : PoolError → String
  | .ioErr e => "I/O error: `" ++ e
  | .channelSend e => "Channel send failed: `" ++ e ++ "`"
  | .channelRecv e => "Channel recv failed: `" ++ e ++ "`"
  | .binarySv2 e => "Binary SV2 error: `" ++ e ++ "`"
  | .codec e => "Codec SV2 error: `" ++ e
  | .framing e => "Framing SV2 error: `" ++ e ++ "`"
  | .noise e => "Noise SV2 error: `" ++ e
  | .rolesLogic e => "Roles Logic SV2 error: `" ++ e ++ "`"
  | .poisonLock s => "Poison lock: " ++ debug_quoted s
  | .componentShutdown s => "Component shutdown: " ++ debug_quoted s
  | .custom s => "Custom SV2 error: `" ++ debug_quoted s ++ "`"
  | .sv2ProtocolError e => "Received Sv2 Protocol Error from upstream: `" ++ e ++ "`"

/-- Error from `src/error.rs` lines 37-81 (the proxy/pool-facing taxonomy).
The `Io` variant is named `ioErr` here; `PoisonLock` carries no payload, as
in the source. -/
inductive Error where
  | vecToSlice32 (e : String)
  | badCliArgs
  | badSerdeJson (e : String)
  | badConfigDeserialize (e : String)
  | binarySv2 (e : String)
  | codecNoise (e : String)
  | framingSv2 (e : String)
  | ioErr (e : String)
  | invalidExtranonce (e : String)
  | parseInt (e : String)
  | rolesSv2Logic (e : String)
  | upstreamIncoming (e : String)
  | v1Protocol (e : String)
  | subprotocolMining (e : String)
  | poisonLock
  | channelErrorReceiver (e : String)
  | tokioChannelErrorRecv (e : String)
  | channelErrorSender (c : ChannelSendError)
  | uint256Conversion (e : String)
  | setDifficultyToMessage (e : String)
  | infallible (e : String)
  | sv2ProtocolError (e : String)
  | targetError (e : String)
  | sv1MessageTooLong
  | miningPoolError (p : PoolError)
deriving DecidableEq

/-- Display impl of Error (`src/error.rs` lines 83-122), transcribed format
string by format string; the `CodecNoise`, `InvalidExtranonce` and `Io` arms
lack the closing backtick in the source, and the `Infallible` arm lacks the
space after the colon. -/
def Error.display : Error → String
  | .badCliArgs => "Bad CLI arg input"
  | .badSerdeJson e => "Bad serde json: `" ++ e ++ "`"
  | .badConfigDeserialize e => "Bad `config` TOML deserialize: `" ++ e ++ "`"
  | .binarySv2 e => "Binary SV2 error: `" ++ e ++ "`"
  | .codecNoise e => "Noise error: `" ++ e
  | .framingSv2 e => "Framing SV2 error: `" ++ e ++ "`"
  | .invalidExtranonce e => "Invalid Extranonce error: `" ++ e
  | .ioErr e => "I/O error: `" ++ e
  | .parseInt e => "Bad convert from `String` to `int`: `" ++ e ++ "`"
  | .rolesSv2Logic e => "Roles SV2 Logic Error: `" ++ e ++ "`"
  | .v1Protocol e => "V1 Protocol Error: `" ++ e ++ "`"
  | .subprotocolMining e => "Subprotocol Mining Error: `" ++ e ++ "`"
  | .upstreamIncoming e => "Upstream parse incoming error: `" ++ e ++ "`"
  | .poisonLock => "Poison Lock error"
  | .channelErrorReceiver e => "Channel receive error: `" ++ e ++ "`"
  | .tokioChannelErrorRecv e => "Channel receive error: `" ++ e ++ "`"
  | .channelErrorSender c => "Channel send error: `" ++ c.debugText ++ "`"
  | .uint256Conversion e => "U256 Conversion Error: `" ++ e ++ "`"
  | .setDifficultyToMessage e =>
      "Error converting SetDifficulty to Message: `" ++ e ++ "`"
  | .vecToSlice32 e => "Standard Error: `" ++ e ++ "`"
  | .infallible e => "Infallible Error:`" ++ e ++ "`"
  | .sv2ProtocolError e =>
      "Received Sv2 Protocol Error from upstream: `" ++ e ++ "`"
  | .targetError e => "Impossible to get target from hashrate: `" ++ e ++ "`"
  | .sv1MessageTooLong => "Received an sv1 message that is longer than max len"
  | .miningPoolError p => "Pool error: `" ++ p.debugText ++ "`"

/-! ### From conversions into `Error` (one def per `impl From` in
`src/error.rs`), each taking the Debug text of the converted cause. -/

def fromBinarySv2 (e : String) : Error := .binarySv2 e

def fromCodecNoise (e : String) : Error := .codecNoise e

def fromFramingSv2 (e : String) : Error := .framingSv2 e

def fromIoError (e : String) : Error := .ioErr e

def fromParseIntError (e : String) : Error := .parseInt e

def fromRolesSv2Logic (e : String) : Error := .rolesSv2Logic e

def fromSerdeJsonError (e : String) : Error := .badSerdeJson e

def fromConfigError (e : String) : Error := .badConfigDeserialize e

def fromV1ApiError (e : String) : Error := .v1Protocol e

def fromRecvError (e : String) : Error := .channelErrorReceiver e

def fromBroadcastRecvError (e : String) : Error := .tokioChannelErrorRecv e

/-- Lift of a poisoned-lock failure (`impl From PoisonError for Error`,
`src/error.rs` lines 191-195): the cause `_e` is dropped and the unit
`PoisonLock` variant is produced. -/
def fromPoisonError (_e : String) : Error := .poisonLock

def fromSendSubmitSharesExtended (e : String) : Error :=
  .channelErrorSender (.submitSharesExtended e)

def fromSendSetNewPrevHash (e : String) : Error :=
  .channelErrorSender (.setNewPrevHash e)

def fromBroadcastSendNotify (e : String) : Error :=
  .channelErrorSender (.notify e)

def fromSendV1Message (e : String) : Error :=
  .channelErrorSender (.v1Message e)

def fromSendExtranonce (e : String) : Error :=
  .channelErrorSender (.extranonce e)

def fromSendNewExtendedMiningJob (e : String) : Error :=
  .channelErrorSender (.newExtendedMiningJob e)

def fromSendSetCustomMiningJob (e : String) : Error :=
  .channelErrorSender (.setCustomMiningJob e)

def fromSendNewTemplatePair (e : String) : Error :=
  .channelErrorSender (.newTemplate e)

def fromVecU8 (e : String) : Error := .vecToSlice32 e

def fromParseLengthError (e : String) : Error := .uint256Conversion e

def fromSetDifficulty (e : String) : Error := .setDifficultyToMessage e

def fromInfallible (e : String) : Error := .infallible e

def fromMiningMessage (e : String) : Error := .sv2ProtocolError e

/-- The three `From` impls that wrap `e.to_string()` of a send error into
`ChannelSendError::General` (`src/error.rs` lines 294-319); the payload here
is that Display text. -/
def fromSendUnit (e : String) : Error := .channelErrorSender (.general e)

def fromSendNewTemplate (e : String) : Error := .channelErrorSender (.general e)

def fromSendTdistSetNewPrevHash (e : String) : Error :=
  .channelErrorSender (.general e)

def fromPoolError (p : PoolError) : Error := .miningPoolError p

/-! ### From conversions into `PoolError` (`src/error.rs` lines 367-430). -/

def poolFromIoError (e : String) : PoolError := .ioErr e

def poolFromRecvError (e : String) : PoolError := .channelRecv e

def poolFromBinarySv2 (e : String) : PoolError := .binarySv2 e

def poolFromCodecError (e : String) : PoolError := .codec e

def poolFromNoiseError (e : String) : PoolError := .noise e

def poolFromRolesLogic (e : String) : PoolError := .rolesLogic e

def poolFromSendError (e : String) : PoolError := .channelSend e

def poolFromString (e : String) : PoolError := .custom e

def poolFromFramingError (e : String) : PoolError := .framing e

/-- Pool-internal lift of a poisoned-lock failure (`src/error.rs` lines
420-424): `PoolError::PoisonLock(e.to_string())` — unlike the `Error`-side
lift, the cause's text is kept. -/
def poolFromPoisonError (e : String) : PoolError := .poisonLock e

def poolFromSv2ProtocolError (e : String) : PoolError := .sv2ProtocolError e

/-- C9 counterexample: the poisoned-lock lift into `Error` discards the
original cause — its display is the fixed string "Poison Lock error", which
does not contain the cause's text, refuting the claim that every conversion's
display preserves the wrapped original cause. -/
theorem c9_counterexample :
    Error.display (fromPoisonError ("lock holder panicked")) = "Poison Lock error" ∧
    ¬ List.IsInfix ("lock holder panicked").data ("Poison Lock error").data :=
  ⟨rfl, by decide⟩

/-- C9 amended: every `From` conversion into the two error taxonomies other
than the poisoned-lock lift into `Error` renders, under Display, a stable
category tag followed by the wrapped cause's text (with the converted
`PoolError` shown through its Debug rendering, which also preserves the
cause); the poisoned-lock lift into `Error` instead drops the cause and
displays the fixed string "Poison Lock error", while the pool-internal
poisoned-lock lift does preserve the cause's text. -/
theorem c9_amended_display_preserves_cause_except_error_poison_lift :
    (∀ c, Error.display (fromBinarySv2 c) = "Binary SV2 error: `" ++ c ++ "`") ∧
    (∀ c, Error.display (fromCodecNoise c) = "Noise error: `" ++ c) ∧
    (∀ c, Error.display (fromFramingSv2 c) = "Framing SV2 error: `" ++ c ++ "`") ∧
    (∀ c, Error.display (fromIoError c) = "I/O error: `" ++ c) ∧
    (∀ c, Error.display (fromParseIntError c) =
      "Bad convert from `String` to `int`: `" ++ c ++ "`") ∧
    (∀ c, Error.display (fromRolesSv2Logic c) =
      "Roles SV2 Logic Error: `" ++ c ++ "`") ∧
    (∀ c, Error.display (fromSerdeJsonError c) = "Bad serde json: `" ++ c ++ "`") ∧
    (∀ c, Error.display (fromConfigError c) =
      "Bad `config` TOML deserialize: `" ++ c ++ "`") ∧
    (∀ c, Error.display (fromV1ApiError c) = "V1 Protocol Error: `" ++ c ++ "`") ∧
    (∀ c, Error.display (fromRecvError c) = "Channel receive error: `" ++ c ++ "`") ∧
    (∀ c, Error.display (fromBroadcastRecvError c) =
      "Channel receive error: `" ++ c ++ "`") ∧
    (∀ c, Error.display (fromSendSubmitSharesExtended c) =
      "Channel send error: `" ++ ("SubmitSharesExtended(" ++ c ++ ")") ++ "`") ∧
    (∀ c, Error.display (fromSendSetNewPrevHash c) =
      "Channel send error: `" ++ ("SetNewPrevHash(" ++ c ++ ")") ++ "`") ∧
    (∀ c, Error.display (fromBroadcastSendNotify c) =
      "Channel send error: `" ++ ("Notify(" ++ c ++ ")") ++ "`") ∧
    (∀ c, Error.display (fromSendV1Message c) =
      "Channel send error: `" ++ ("V1Message(" ++ c ++ ")") ++ "`") ∧
    (∀ c, Error.display (fromSendExtranonce c) =
      "Channel send error: `" ++ ("Extranonce(" ++ c ++ ")") ++ "`") ∧
    (∀ c, Error.display (fromSendNewExtendedMiningJob c) =
      "Channel send error: `" ++ ("NewExtendedMiningJob(" ++ c ++ ")") ++ "`") ∧
    (∀ c, Error.display (fromSendSetCustomMiningJob c) =
      "Channel send error: `" ++ ("SetCustomMiningJob(" ++ c ++ ")") ++ "`") ∧
    (∀ c, Error.display (fromSendNewTemplatePair c) =
      "Channel send error: `" ++ ("NewTemplate(" ++ c ++ ")") ++ "`") ∧
    (∀ c, Error.display (fromVecU8 c) = "Standard Error: `" ++ c ++ "`") ∧
    (∀ c, Error.display (fromParseLengthError c) =
      "U256 Conversion Error: `" ++ c ++ "`") ∧
    (∀ c, Error.display (fromSetDifficulty c) =
      "Error converting SetDifficulty to Message: `" ++ c ++ "`") ∧
    (∀ c, Error.display (fromInfallible c) = "Infallible Error:`" ++ c ++ "`") ∧
    (∀ c, Error.display (fromMiningMessage c) =
      "Received Sv2 Protocol Error from upstream: `" ++ c ++ "`") ∧
    (∀ c, Error.display (fromSendUnit c) =
      "Channel send error: `" ++ ("General(" ++ debug_quoted c ++ ")") ++ "`") ∧
    (∀ c, Error.display (fromSendNewTemplate c) =
      "Channel send error: `" ++ ("General(" ++ debug_quoted c ++ ")") ++ "`") ∧
    (∀ c, Error.display (fromSendTdistSetNewPrevHash c) =
      "Channel send error: `" ++ ("General(" ++ debug_quoted c ++ ")") ++ "`") ∧
    (∀ p, Error.display (fromPoolError p) =
      "Pool error: `" ++ PoolError.debugText p ++ "`") ∧
    (∀ c, Error.display (fromPoisonError c) = "Poison Lock error") ∧
    (∀ c, PoolError.display (poolFromIoError c) = "I/O error: `" ++ c) ∧
    (∀ c, PoolError.display (poolFromRecvError c) =
      "Channel recv failed: `" ++ c ++ "`") ∧
    (∀ c, PoolError.display (poolFromBinarySv2 c) =
      "Binary SV2 error: `" ++ c ++ "`") ∧
    (∀ c, PoolError.display (poolFromCodecError c) = "Codec SV2 error: `" ++ c) ∧
    (∀ c, PoolError.display (poolFromNoiseError c) = "Noise SV2 error: `" ++ c) ∧
    (∀ c, PoolError.display (poolFromRolesLogic c) =
      "Roles Logic SV2 error: `" ++ c ++ "`") ∧
    (∀ c, PoolError.display (poolFromSendError c) =
      "Channel send failed: `" ++ c ++ "`") ∧
    (∀ c, PoolError.display (poolFromString c) =
      "Custom SV2 error: `" ++ debug_quoted c ++ "`") ∧
    (∀ c, PoolError.display (poolFromFramingError c) =
      "Framing SV2 error: `" ++ c ++ "`") ∧
    (∀ c, PoolError.display (poolFromPoisonError c) =
      "Poison lock: " ++ debug_quoted c) ∧
    (∀ c, PoolError.display (poolFromSv2ProtocolError c) =
      "Received Sv2 Protocol Error from upstream: `" ++ c ++ "`") :=
  ⟨fun _ => rfl, fun _ => rfl, fun _ => rfl, fun _ => rfl, fun _ => rfl,
    fun _ => rfl, fun _ => rfl, fun _ => rfl, fun _ => rfl, fun _ => rfl,
    fun _ => rfl, fun _ => rfl, fun _ => rfl, fun _ => rfl, fun _ => rfl,
    fun _ => rfl, fun _ => rfl, fun _ => rfl, fun _ => rfl, fun _ => rfl,
    fun _ => rfl, fun _ => rfl, fun _ => rfl, fun _ => rfl, fun _ => rfl,
    fun _ => rfl, fun _ => rfl, fun _ => rfl, fun _ => rfl, fun _ => rfl,
    fun _ => rfl, fun _ => rfl, fun _ => rfl, fun _ => rfl, fun _ => rfl,
    fun _ => rfl, fun _ => rfl, fun _ => rfl, fun _ => rfl, fun _ => rfl⟩

/-- Witness for the amended C9: a representative conversion applied at a
concrete cause, with the cause's text visible in the display output. -/
theorem c9_amended_witness :
    Error.display (fromBinarySv2 ("bad length")) =
      "Binary SV2 error: `" ++ "bad length" ++ "`" :=
  (c9_amended_display_preserves_cause_except_error_poison_lift).1 ("bad length")

/-! ## Coinbase-output resolution

Transcribed from `process_coinbase_output` and `prompt_for_coinbase_output`
(`src/configuration/mod.rs` lines 76-118 and 211-247). The SLIP-132 decoding
(`validate_xpub`) and the BIP-32 public derivation (`derive_child_public_key`,
whose success value is the derived child key rendered as a string) are
external cryptographic library calls, modelled as oracle parameters; `Xpub`
is the abstract type of decoded extended public keys. Console input is a
scripted list of lines (without trailing newlines); a result of `none` models
the interactive loop running forever because the script never supplies a
usable input. -/

/-- Rust `str::trim`: drop Unicode whitespace from both ends (modelled on the
character list backing the string). -/
def rust_trim (s : String) : String :=
  String.mk
    (((s.data.dropWhile Char.isWhitespace).reverse.dropWhile Char.isWhitespace).reverse)

section CoinbaseOutput

variable {Xpub : Type}

/-- Key-entry loop of `prompt_for_coinbase_output`: read lines until one
trims and validates as a SLIP-132 extended public key; returns the key and
the unconsumed rest of the script. -/
def prompt_key_phase (validate : String → Option Xpub) :
    List String → Option (Xpub × List String)
  | [] => none
  | line :: rest =>
    match validate (rust_trim line) with
    | some x => some (x, rest)
    | none => prompt_key_phase validate rest

/-- Path handling of the second loop: an input whose trim is empty is
replaced by the default derivation path (the untrimmed input is what gets
passed to derivation, as in the source). -/
def effective_path (line : String) : String :=
  if (rust_trim line).data.isEmpty then "m/84/1/0" else line

/-- Path-entry loop of `prompt_for_coinbase_output`: with the validated key
fixed, read path lines (default on empty) until derivation succeeds, and
return the derived child key string. -/
def prompt_path_phase (derive : Xpub → String → Option String) (x : Xpub) :
    List String → Option String
  | [] => none
  | line :: rest =>
    match derive x (effective_path line) with
    | some child => some child
    | none => prompt_path_phase derive x rest

/-- Model of `prompt_for_coinbase_output`: the key-entry loop followed by the
path-entry loop on the remaining script. -/
def prompt_for_coinbase_output (validate : String → Option Xpub)
    (derive : Xpub → String → Option String) (script : List String) :
    Option String :=
  match prompt_key_phase validate script with
  | none => none
  | some (x, rest) => prompt_path_phase derive x rest

/-- Model of `process_coinbase_output`: with no supplied value it goes
straight to the interactive loop; a supplied value is validated and derived
at the supplied derivation path, and on either failure the function degrades
into the interactive loop instead of failing. -/
def process_coinbase_output (validate : String → Option Xpub)
    (derive : Xpub → String → Option String) (coinbase_output : Option String)
    (derivation_path : String) (script : List String) : Option String :=
  match coinbase_output with
  | none => prompt_for_coinbase_output validate derive script
  | some supplied =>
    match validate supplied with
    | some xpub =>
      match derive xpub derivation_path with
      | some child => some child
      | none => prompt_for_coinbase_output validate derive script
    | none => prompt_for_coinbase_output validate derive script

/-- Every result of the path-entry loop is the successful derivation of some
script line's effective path. -/
theorem prompt_path_phase_some (derive : Xpub → String → Option String)
    (x : Xpub) :
    ∀ lines child, prompt_path_phase derive x lines = some child →
      ∃ line, line ∈ lines ∧ derive x (effective_path line) = some child := by
  intro lines
  induction lines with
  | nil => intro child h; exact absurd h (by simp [prompt_path_phase])
  | cons line rest ih =>
      intro child h
      rcases hd : derive x (effective_path line) with _ | c
      · simp only [prompt_path_phase, hd] at h
        obtain ⟨l, hl, hdl⟩ := ih child h
        exact ⟨l, List.mem_cons_of_mem line hl, hdl⟩
      · simp only [prompt_path_phase, hd] at h
        obtain rfl : c = child := Option.some.inj h
        exact ⟨line, List.mem_cons_self line rest, hd⟩

/-- C8: when a supplied coinbase-output value fails SLIP-132 validation, or
validates but fails derivation at the supplied path (e.g. a hardened child),
`process_coinbase_output` does not return an error and does not return any
result for that path: it enters the interactive recovery loop, and any key
string it returns is the successful derivation of a valid key obtained from
the recovery script at one of the script's (non-hardened-derivable) paths. -/
theorem c8_supplied_failure_enters_recovery_loop
    (validate : String → Option Xpub) (derive : Xpub → String → Option String)
    (supplied derivation_path : String) (script : List String)
    (h : validate supplied = none ∨
      ∃ x, validate supplied = some x ∧ derive x derivation_path = none) :
    process_coinbase_output validate derive (some supplied) derivation_path script =
      prompt_for_coinbase_output validate derive script ∧
    ∀ child,
      process_coinbase_output validate derive (some supplied) derivation_path
          script = some child →
      ∃ x rest, prompt_key_phase validate script = some (x, rest) ∧
        ∃ line, line ∈ rest ∧ derive x (effective_path line) = some child := by
  have hloop : process_coinbase_output validate derive (some supplied)
      derivation_path script = prompt_for_coinbase_output validate derive script := by
    rcases h with hv | ⟨x, hv, hd⟩
    · simp [process_coinbase_output, hv]
    · simp [process_coinbase_output, hv, hd]
  refine ⟨hloop, ?_⟩
  intro child hres
  rw [hloop] at hres
  rcases hk : prompt_key_phase validate script with _ | ⟨x, rest⟩
  · rw [prompt_for_coinbase_output, hk] at hres
    exact absurd hres (by simp)
  · rw [prompt_for_coinbase_output, hk] at hres
    obtain ⟨line, hline, hd⟩ := prompt_path_phase_some derive x rest child hres
    exact ⟨x, rest, rfl, line, hline, hd⟩

end CoinbaseOutput

/-- Concrete validation oracle for the C8 witness: exactly one accepted
SLIP-132 key text, decoding to the marker key "X". -/
def sample_validate (s : String) : Option String :=
  if s = "xpub-good" then some ("X") else none

/-- Concrete derivation oracle for the C8 witness: the marker key derives
only at the non-hardened path "m/0/0"; the hardened path "m/0h/0" (or any
other) fails. -/
def sample_derive (x path : String) : Option String :=
  if x = "X" ∧ path = "m/0/0" then some ("childpub") else none

/-- Witness for C8: a supplied key that validates but fails hardened-path
derivation falls into the recovery loop, and the scripted follow-up (the
same key, then a non-hardened path) produces the loop's derived key. -/
theorem c8_witness :
    process_coinbase_output sample_validate sample_derive (some ("xpub-good"))
        ("m/0h/0") (["xpub-good", "m/0/0"]) =
      prompt_for_coinbase_output sample_validate sample_derive
        (["xpub-good", "m/0/0"]) ∧
    prompt_for_coinbase_output sample_validate sample_derive
        (["xpub-good", "m/0/0"]) = some ("childpub") :=
  ⟨(c8_supplied_failure_enters_recovery_loop sample_validate sample_derive
      ("xpub-good") ("m/0h/0") (["xpub-good", "m/0/0"])
      (Or.inr ⟨"X", rfl, rfl⟩)).1,
    by decide⟩

/-! ## Orchestrator: startup sequence and shutdown race

Transcribed from `main` in `src/main.rs` (lines 140-221). The startup steps
are recorded as an event trace in program order; the `tokio::select!` race is
modelled by its decisive first event. -/

inductive StartupStep where
  | parseArgs
  | rejectMainnet
  | initLogging
  | nodeLaunch
  | waitReady
  | createCancelToken
  | resolveProxyConfig
  | resolvePoolConfig
  | resolveCoinbaseOutput
  | installCoinbaseOutput
  | spawnEngines
deriving DecidableEq

/-- Startup steps of `main` in program order on the path that reaches the
engine spawn (each fallible step exits `main` early on failure, cutting the
trace short; the order of the steps performed is unchanged). From
`src/main.rs`: `Args::parse` (142), mainnet rejection (145), logger init
(156), `BitcoinNode::new` (164), `wait_for_ready` (168),
`CancellationToken::new` plus clones (171-173), `load_or_create_proxy_config`
(176), `load_or_create_pool_config` (180), `process_coinbase_output` (184),
`pool_settings.coinbase_outputs = vec![...]` (196), `tokio::select!` over the
two engine runs (199). -/
def main_startup_trace : List StartupStep :=
  [ .parseArgs
  , .rejectMainnet
  , .initLogging
  , .nodeLaunch
  , .waitReady
  , .createCancelToken
  , .resolveProxyConfig
  , .resolvePoolConfig
  , .resolveCoinbaseOutput
  , .installCoinbaseOutput
  , .spawnEngines ]

/-- C3 counterexample: the pool configuration is not resolved before the proxy
configuration — `main` resolves the proxy configuration first, so the claimed
subsequence (pool resolution, then proxy resolution) does not occur in the
startup trace. -/
theorem c3_counterexample :
    ¬ List.Sublist [StartupStep.resolvePoolConfig, StartupStep.resolveProxyConfig]
        main_startup_trace := by
  decide

/-- C3 amended: the startup sequence is node launch, readiness wait, proxy
configuration resolution, pool configuration resolution, coinbase-output
resolution, installation of the coinbase output into the pool configuration,
and only then the engine spawn — i.e. as claimed except that the proxy
configuration is resolved before the pool configuration (and the cancellation
token is created before either configuration is resolved). -/
theorem c3_amended_startup_order :
    List.Sublist
      [ StartupStep.nodeLaunch
      , StartupStep.waitReady
      , StartupStep.createCancelToken
      , StartupStep.resolveProxyConfig
      , StartupStep.resolvePoolConfig
      , StartupStep.resolveCoinbaseOutput
      , StartupStep.installCoinbaseOutput
      , StartupStep.spawnEngines ] main_startup_trace ∧
    main_startup_trace.getLast? = some StartupStep.spawnEngines := by
  decide

/-- Result of one engine's `run` future, as seen by the `tokio::select!`. -/
inductive EngineResult where
  | ok
  | err (e : String)
deriving DecidableEq

/-- The decisive first event of the `tokio::select!` race in `main`:
termination of the proxy engine, termination of the pool engine, or the
Ctrl+C interrupt. -/
inductive ShutdownEvent where
  | proxyDone (r : EngineResult)
  | poolDone (r : EngineResult)
  | ctrlC
deriving DecidableEq

/-- Observable outcome of the select block: how many times
`cancel_token.cancel()` is called in the taken arm, and the error value
`main` propagates as its own result (`none` = main returns Ok). -/
structure ShutdownOutcome where
  cancel_count : Nat
  propagated : Option String
deriving DecidableEq

/-- Shutdown policy of `main` (`src/main.rs` lines 199-221): an engine arm
cancels and propagates only when its result is an error; the Ctrl+C arm logs
and cancels without propagating; an engine finishing with Ok falls through to
the final `Ok(())` without touching the cancellation token. -/
def shutdown_outcome : ShutdownEvent → ShutdownOutcome
  | .proxyDone (.err e) => ⟨1, some e⟩
  | .proxyDone .ok => ⟨0, none⟩
  | .poolDone (.err e) => ⟨1, some e⟩
  | .poolDone .ok => ⟨0, none⟩
  | .ctrlC => ⟨1, none⟩

/-- C6 counterexample: a terminating run whose first event is the proxy
engine finishing without failure never cancels the cancellation signal,
refuting the claim that every terminating run cancels it exactly once. -/
theorem c6_counterexample :
    (shutdown_outcome (ShutdownEvent.proxyDone EngineResult.ok)).cancel_count ≠ 1 := by
  decide

/-- C6 amended: whichever of the three claimed events fires first decides the
outcome exactly as claimed — an engine failure is logged, cancels the signal
once, and is propagated as the orchestrator's own result, and an external
interrupt cancels once and propagates no failure — but a run whose first
event is an engine terminating without failure ends without the signal ever
being cancelled. -/
theorem c6_amended_shutdown_policy (e : String) :
    shutdown_outcome (.proxyDone (.err e)) = ⟨1, some e⟩ ∧
    shutdown_outcome (.poolDone (.err e)) = ⟨1, some e⟩ ∧
    shutdown_outcome .ctrlC = ⟨1, none⟩ ∧
    shutdown_outcome (.proxyDone .ok) = ⟨0, none⟩ ∧
    shutdown_outcome (.poolDone .ok) = ⟨0, none⟩ :=
  ⟨rfl, rfl, rfl, rfl, rfl⟩

/-- Witness for the amended C6: the concrete proxy-failure event. -/
theorem c6_amended_witness :
    shutdown_outcome (.proxyDone (.err ("socket closed"))) = ⟨1, some ("socket closed")⟩ ∧
    shutdown_outcome (.poolDone (.err ("socket closed"))) = ⟨1, some ("socket closed")⟩ ∧
    shutdown_outcome .ctrlC = ⟨1, none⟩ ∧
    shutdown_outcome (.proxyDone .ok) = ⟨0, none⟩ ∧
    shutdown_outcome (.poolDone .ok) = ⟨0, none⟩ :=
  c6_amended_shutdown_policy ("socket closed")

/-- C10: for every supported network the rendered node configuration document
contains the `regtest=1` flag line and the `[regtest]` section header, and the
document is the fixed template rendered with that network's four derived
ports, so only the four substituted port numbers depend on the network. -/
theorem c10_conf_always_regtest_flagged (n : Network) (h : n ≠ Network.bitcoin) :
    ∃ rpc, base_rpc_port n = .ok rpc ∧
      bitcoin_conf n = .ok (bitcoin_conf_lines rpc (rpc + 1) (rpc + 2) (rpc + 3)) ∧
      "regtest=1" ∈ bitcoin_conf_lines rpc (rpc + 1) (rpc + 2) (rpc + 3) ∧
      "[regtest]" ∈ bitcoin_conf_lines rpc (rpc + 1) (rpc + 2) (rpc + 3) := by
  cases n with
  | bitcoin => exact absurd rfl h
  | testnet =>
      refine ⟨18332, rfl, rfl, ?_, ?_⟩ <;> simp [bitcoin_conf_lines]
  | signet =>
      refine ⟨38332, rfl, rfl, ?_, ?_⟩ <;> simp [bitcoin_conf_lines]
  | regtest =>
      refine ⟨18443, rfl, rfl, ?_, ?_⟩ <;> simp [bitcoin_conf_lines]

/-- Witness for C10: the testnet selection still yields a regtest-flagged
configuration document. -/
theorem c10_witness :
    ∃ rpc, base_rpc_port Network.testnet = .ok rpc ∧
      bitcoin_conf Network.testnet =
        .ok (bitcoin_conf_lines rpc (rpc + 1) (rpc + 2) (rpc + 3)) ∧
      "regtest=1" ∈ bitcoin_conf_lines rpc (rpc + 1) (rpc + 2) (rpc + 3) ∧
      "[regtest]" ∈ bitcoin_conf_lines rpc (rpc + 1) (rpc + 2) (rpc + 3) :=
  c10_conf_always_regtest_flagged Network.testnet (by decide)

end Potato
